import Mathlib

/-
Verification of the file-organizer engine
(`src/file_organizer/core/organizer.py` and
`src/file_organizer/core/config_manager.py`) against its natural-language
specification.

Modelling conventions.
* Machine integers do not occur; sizes are `Nat`, timestamps are `Int`
  (the value `datetime.fromtimestamp` / `datetime.fromisoformat` compare by).
* The `strftime("%Y-%m")` rendering of a modification time is carried as a
  string field of the file record (calendar arithmetic is environmental).
* The filesystem is a flat finite map from path strings to numeric content
  identifiers; `shutil.move` onto an existing file path replaces it, as on
  POSIX `os.rename`.
* The directory walk (`os.walk`, including its pruning of hidden directories
  and of directories named after rules) is environmental: a scan takes the
  list of files the walk yields.  `fnmatch`-based exclusion
  (`FileOrganizer._should_exclude_file`) is passed as an opaque boolean
  predicate parameter `excl`.
* The thread pools apply `_move_file` to independent per-file records with
  all shared counters locked; they are modelled by a sequential fold in plan
  order.  Filesystem exceptions (permission errors and the like) are
  environmental and modelled only where the code inspects them: a failing
  `stat` is the `statFails` flag of a walked file, and a `shutil.move` whose
  source is absent fails and is counted as an error.
-/

namespace FileOrganizer

/-- Organization rule, translated from the dataclass `OrganizationRule` in
`src/file_organizer/core/config_manager.py` (lines 23-33).  `date_min` and
`date_max` hold the already-parsed timestamp that `datetime.fromisoformat`
yields. -/
structure OrganizationRule where
  name : String
  extensions : List String
  size_min : Option Nat := none
  size_max : Option Nat := none
  date_min : Option Int := none
  date_max : Option Int := none
  target_folder : Option String := none
  enabled : Bool := true
deriving Repr, DecidableEq

/-- Profile options consumed by the engine, from the dataclass
`ConfigProfile` (config_manager.py lines 35-58).  `exclude_patterns` is
represented by the predicate parameter `excl` threaded through the scan. -/
structure ConfigProfile where
  rules : List OrganizationRule
  create_date_folders : Bool := false
  create_size_folders : Bool := false
  handle_duplicates : String := "rename"
  include_hidden_files : Bool := false
  max_file_size : Option Nat := none
deriving Repr

/-- Python `str.lower()` on the ASCII range (extensions and suffixes),
written over the character list so that it reduces inside the kernel. -/
def pyLower (s : String) : String := String.mk (s.data.map Char.toLower)

/-- Python `str.startswith(pre)`, written over the character lists. -/
def pyStartsWith (s pre : String) : Bool := pre.data.isPrefixOf s.data

/-- Body of the first loop of `ConfigManager.get_rule_for_file`
(config_manager.py lines 530-554): true exactly when none of the `continue`
conditions fires for rule `r`.  `ext` is the already-lowercased file
suffix. -/
def ruleMatches (r : OrganizationRule) (ext : String) (size : Nat) (mtime : Int) : Bool :=
  (r.extensions.isEmpty || (r.extensions.map pyLower).contains ext) &&
  (match r.size_min with | none => true | some m => !(decide (size < m))) &&
  (match r.size_max with | none => true | some m => !(decide (size > m))) &&
  (match r.date_min with | none => true | some d => !(decide (mtime < d))) &&
  (match r.date_max with | none => true | some d => !(decide (mtime > d)))

/-- Translation of `ConfigManager.get_rule_for_file` (config_manager.py
lines 520-561): the first loop returns the first enabled rule all of whose
specified predicates hold; the fallback loop returns the first enabled rule
literally named "Others". -/
def get_rule_for_file (rules : List OrganizationRule) (suffix : String)
    (size : Nat) (mtime : Int) : Option OrganizationRule :=
  match rules.find? (fun r => r.enabled && ruleMatches r (pyLower suffix) size mtime) with
  | some r => some r
  | none => rules.find? (fun r => r.name == "Others" && r.enabled)

/-- Translation of `FileOrganizer._get_size_category` (organizer.py lines
287-296). -/
def get_size_category (size : Nat) : String :=
  if size < 1024 * 1024 then "Small"
  else if size < 100 * 1024 * 1024 then "Medium"
  else if size < 1024 * 1024 * 1024 then "Large"
  else "XLarge"

/-- One file yielded by the `os.walk` loop of `FileOrganizer._scan_directory`
(organizer.py lines 186-209), together with the outcome of `stat` on it.
`path` is `str(Path(root_dir) / file)`, `name` the basename, `stem` and
`suffix` the `pathlib` stem and suffix of the name, `inTargetRoot` the test
`file_path.parent == target_path`, `ym` the `strftime("%Y-%m")` rendering of
`mtime`, and `statFails` models `file_path.stat()` raising `OSError` or
`PermissionError`. -/
structure RawFile where
  path : String
  name : String
  stem : String
  suffix : String
  inTargetRoot : Bool
  size : Nat
  mtime : Int
  ym : String
  statFails : Bool := false
deriving Repr

/-- The three per-file `continue` filters of the walk loop of
`_scan_directory` (organizer.py lines 194-209), in source order: script-like
files directly in the target root, hidden files, and `exclude_patterns`
(the latter via the opaque predicate `excl`). -/
def scanKeep (p : ConfigProfile) (excl : RawFile → Bool) (f : RawFile) : Bool :=
  !(f.inTargetRoot && (f.suffix == ".py" || f.suffix == ".json" || f.suffix == ".log")) &&
  !(!p.include_hidden_files && pyStartsWith f.name ".") &&
  !(excl f)

/-- The size-limit check of `_scan_directory` (organizer.py line 225):
`if profile.max_file_size and stat_info.st_size > profile.max_file_size`,
with Python truthiness (a limit of `0` is falsy, hence no limit). -/
def sizeLimitOk (p : ConfigProfile) (size : Nat) : Bool :=
  match p.max_file_size with
  | none => true
  | some m => m == 0 || !(decide (size > m))

/-- Destination-folder computation of `_scan_directory` (organizer.py lines
241-252): `rule.target_folder or rule.name` (Python truthiness: an empty
string falls back to the name), then an optional `YYYY-MM` segment, then an
optional size-category segment. -/
def planTargetFolder (p : ConfigProfile) (r : OrganizationRule) (f : RawFile) : String :=
  let base :=
    match r.target_folder with
    | none => r.name
    | some s => if s = "" then r.name else s
  let base1 := if p.create_date_folders then base ++ "/" ++ f.ym else base
  if p.create_size_folders then base1 ++ "/" ++ get_size_category f.size else base1

/-- The fields of the dataclass `FileInfo` (organizer.py lines 23-33) that
the executor and the journal consume. -/
structure FileInfo where
  path : String
  name : String
  stem : String
  suffix : String
  size : Nat
  target_folder : String
deriving Repr, DecidableEq

def mkFileInfo (p : ConfigProfile) (r : OrganizationRule) (f : RawFile) : FileInfo :=
  ⟨f.path, f.name, f.stem, f.suffix, f.size, planTargetFolder p r f⟩

/-- The scanner's accumulating state: collected `FileInfo`s plus the stats
fields `_scan_directory` touches. -/
structure ScanState where
  infos : List FileInfo
  total_files : Nat
  total_size : Nat
  errors : Nat
deriving Repr

/-- One iteration of the second loop of `_scan_directory` (organizer.py
lines 217-264): a failing `stat` is logged and counted as an error; an
oversized file is skipped; a file with a matching rule is planned and
counted; a file with no rule is passed over. -/
def scanStep (p : ConfigProfile) (st : ScanState) (f : RawFile) : ScanState :=
  if f.statFails then { st with errors := st.errors + 1 }
  else if sizeLimitOk p f.size then
    match get_rule_for_file p.rules f.suffix f.size f.mtime with
    | some r =>
        { st with infos := st.infos ++ [mkFileInfo p r f],
                  total_files := st.total_files + 1,
                  total_size := st.total_size + f.size }
    | none => st
  else st

/-- `FileOrganizer._scan_directory` over the files the walk yields. -/
def scan_directory (p : ConfigProfile) (excl : RawFile → Bool)
    (walk : List RawFile) : ScanState :=
  (walk.filter (scanKeep p excl)).foldl (scanStep p) ⟨[], 0, 0, 0⟩

/-- Flat filesystem model: a finite list of (path, content) pairs, content
abstracted to a numeric identifier. -/
abbrev FS := List (String × Nat)

def fsExists (fs : FS) (path : String) : Bool :=
  fs.any (fun e => e.1 == path)

def fsGet (fs : FS) (path : String) : Option Nat :=
  (fs.find? (fun e => e.1 == path)).map (fun e => e.2)

def fsRemove (fs : FS) (path : String) : FS :=
  fs.filter (fun e => !(e.1 == path))

/-- `shutil.move`: the source entry is removed and its content reappears at
the destination, replacing any file already there. -/
def fsMove (fs : FS) (src dst : String) : FS :=
  match fsGet fs src with
  | none => fs
  | some c => fsRemove (fsRemove fs src) dst ++ [(dst, c)]

/-- Rendering of the pathlib `/` join: `Path(".") / b` (and the degenerate
empty left operand) normalize to `b`. -/
def joinPath (a b : String) : String :=
  if a = "" || a = "." then b else a ++ "/" ++ b

/-- Candidate name `f"{base_name}_{counter}{suffix}"` under `target_folder`
built by the rename branch of `_move_file` (organizer.py line 443). -/
def renameCandidate (folder stem sfx : String) (n : Nat) : String :=
  folder ++ "/" ++ stem ++ "_" ++ Nat.repr n ++ sfx

/-- The `while target_file_path.exists()` loop of the rename branch of
`FileOrganizer._move_file` (organizer.py lines 438-444), with explicit fuel:
the Python loop runs until a free name is found, which on a finite
filesystem always happens, so callers pass fuel exceeding the number of
existing files. -/
def resolveRename (fs : FS) (folder stem sfx : String) :
    String → Nat → Nat → String
  | cur, _, 0 => cur
  | cur, counter, fuel + 1 =>
      if fsExists fs cur then
        resolveRename fs folder stem sfx
          (renameCandidate folder stem sfx counter) (counter + 1) fuel
      else cur

/-- The executor's accumulating state: the filesystem plus the stats fields
`_move_file` touches. -/
structure ExecState where
  fs : FS
  files_moved : Nat
  files_skipped : Nat
  errors : Nat
deriving Repr

/-- Translation of `FileOrganizer._move_file` (organizer.py lines 418-477),
applied per planned file.  Collision handling follows
`profile.handle_duplicates`; a `shutil.move` whose source is gone raises and
is counted as an error (the `except` branch, lines 471-477). -/
def move_file (root : String) (p : ConfigProfile) (st : ExecState)
    (fi : FileInfo) : ExecState :=
  if fi.target_folder = "" then st
  else
    let folder := joinPath root fi.target_folder
    let dest := folder ++ "/" ++ fi.name
    if fsExists st.fs dest then
      if p.handle_duplicates = "skip" then
        { st with files_skipped := st.files_skipped + 1 }
      else if p.handle_duplicates = "overwrite" then
        let fs1 := fsRemove st.fs dest
        if fsExists fs1 fi.path then
          { st with fs := fsMove fs1 fi.path dest,
                    files_moved := st.files_moved + 1 }
        else
          { st with fs := fs1, errors := st.errors + 1 }
      else
        let dest2 := resolveRename st.fs folder fi.stem fi.suffix dest 1 (st.fs.length + 1)
        if fsExists st.fs fi.path then
          { st with fs := fsMove st.fs fi.path dest2,
                    files_moved := st.files_moved + 1 }
        else
          { st with errors := st.errors + 1 }
    else
      if fsExists st.fs fi.path then
        { st with fs := fsMove st.fs fi.path dest,
                  files_moved := st.files_moved + 1 }
      else
        { st with errors := st.errors + 1 }

/-- Translation of `FileOrganizer._create_undo_info` (organizer.py lines
479-502): invoked at the start of `_execute_organization`, it records one
entry per planned file, with `target` the re-derived relative planned
destination `str(Path(file_info.target_folder) / file_info.path.name)`. -/
def create_undo_info (infos : List FileInfo) : List (String × String) :=
  infos.filterMap (fun fi =>
    if fi.target_folder = "" then none
    else some (fi.path, fi.target_folder ++ "/" ++ fi.name))

/-- The stats fields of the dataclass `OrganizationStats` (organizer.py
lines 35-50) that the claims mention. -/
structure OrganizationStats where
  total_files : Nat
  files_moved : Nat
  files_skipped : Nat
  errors : Nat
  total_size : Nat
deriving Repr, DecidableEq

/-- Observable outcome of one `organize_directory` run: the resulting
filesystem, the undo journal contents if one was written (the file
`undo_info.json` lives outside the organized tree), and the returned
stats. -/
structure RunResult where
  fs : FS
  journal : Option (List (String × String))
  stats : OrganizationStats
deriving Repr, DecidableEq

/-- The tail of `FileOrganizer.organize_directory` (organizer.py lines
134-177) after scanning: the empty-scan early return (line 138), the
dry-run / declined-confirmation early return (line 156, before any
execution), then `_execute_organization` (lines 365-416): the optional
journal write, idempotent folder creation (invisible in the flat file map),
and the per-file moves. -/
def organize_from_scan (root : String) (p : ConfigProfile)
    (dry_run enable_undo : Bool) (fs0 : FS) (sc : ScanState) : RunResult :=
  let scanStats : OrganizationStats :=
    ⟨sc.total_files, 0, 0, sc.errors, sc.total_size⟩
  if sc.infos.isEmpty then ⟨fs0, none, scanStats⟩
  else if dry_run then ⟨fs0, none, scanStats⟩
  else
    let journal := if enable_undo then some (create_undo_info sc.infos) else none
    let ex := sc.infos.foldl (move_file root p) ⟨fs0, 0, 0, 0⟩
    ⟨ex.fs, journal,
      ⟨sc.total_files, ex.files_moved, ex.files_skipped,
        sc.errors + ex.errors, sc.total_size⟩⟩

/-- `FileOrganizer.organize_directory`: scan, then plan and execute. -/
def organize_directory (root : String) (p : ConfigProfile)
    (excl : RawFile → Bool) (dry_run enable_undo : Bool)
    (walk : List RawFile) (fs0 : FS) : RunResult :=
  organize_from_scan root p dry_run enable_undo fs0 (scan_directory p excl walk)

/-- Replay state of `FileOrganizer.undo_last_operation`: the filesystem, the
trace of performed restores in execution order, and the two counters. -/
structure UndoState where
  fs : FS
  restored : List (String × String)
  success_count : Nat
  error_count : Nat
deriving Repr

/-- One iteration of the replay loop of `undo_last_operation` (organizer.py
lines 558-574) on a journal entry `(source, target)`: an entry whose target
does not exist is passed over silently (neither restored nor counted as an
error); otherwise the target is moved back to the source
(`mkdir(parents=True, exist_ok=True)` on the source's parent has no effect
in the flat file map).  Exceptions from the move are environmental. -/
def undoStep (st : UndoState) (op : String × String) : UndoState :=
  if fsExists st.fs op.2 then
    { st with fs := fsMove st.fs op.2 op.1,
              restored := st.restored ++ [(op.2, op.1)],
              success_count := st.success_count + 1 }
  else st

/-- `FileOrganizer.undo_last_operation` (organizer.py lines 533-589):
iterates the journal's operations in recorded order; in the source a
resulting `error_count` of zero triggers deletion of the journal file. -/
def undo_last_operation (fs : FS) (ops : List (String × String)) : UndoState :=
  ops.foldl undoStep ⟨fs, [], 0, 0⟩

/-- Specification-side matching predicate, phrased after the claim's own
words: extension membership compared case-insensitively when the rule's
extension set is non-empty (an empty set satisfies the predicate
unconditionally), size within `[size_min, size_max]` when set, modified
time within `[date_min, date_max]` when set. -/
def ClaimMatches (r : OrganizationRule) (suffix : String) (size : Nat)
    (mtime : Int) : Prop :=
  (r.extensions = [] ∨ pyLower suffix ∈ r.extensions.map pyLower) ∧
  (∀ m, r.size_min = some m → m ≤ size) ∧
  (∀ m, r.size_max = some m → size ≤ m) ∧
  (∀ d, r.date_min = some d → d ≤ mtime) ∧
  (∀ d, r.date_max = some d → mtime ≤ d)

/-- Specification-side notion of a catch-all rule: enabled, empty extension
set, no size or date bounds. -/
def IsCatchAll (r : OrganizationRule) : Prop :=
  r.enabled = true ∧ r.extensions = [] ∧ r.size_min = none ∧
  r.size_max = none ∧ r.date_min = none ∧ r.date_max = none

/-- Specification-side size banding, phrased after the claim's words:
Small below 1 MiB, Medium below 100 MiB, Large below 1 GiB, XLarge above,
with strict less-than upper bounds in binary units. -/
def specSizeBand (size : Nat) : String :=
  if size < 1048576 then "Small"
  else if size < 104857600 then "Medium"
  else if size < 1073741824 then "Large"
  else "XLarge"

/-- Specification-side destination composition `base/[date]/[size]/filename`
from the claim's words. -/
def specDest (base ym : String) (size : Nat) (dateF sizeF : Bool)
    (filename : String) : String :=
  base ++ (if dateF then "/" ++ ym else "") ++
    (if sizeF then "/" ++ specSizeBand size else "") ++ "/" ++ filename

/-- Empty exclusion-pattern predicate (a profile whose `exclude_patterns`
matches nothing). -/
def exclNone : RawFile → Bool := fun _ => false

/-- The rule `Images: [.jpg]` used by the spec's concrete scenarios. -/
def imagesRule : OrganizationRule := { name := "Images", extensions := [".jpg"] }

/-- The catch-all rule `Others: []` of the spec's concrete scenarios. -/
def othersRule : OrganizationRule := { name := "Others", extensions := [] }

/-- Scenario profile with the default `rename` collision policy. -/
def pRename : ConfigProfile := { rules := [imagesRule, othersRule] }

/-- Scenario profile with the `skip` collision policy. -/
def pSkip : ConfigProfile :=
  { rules := [imagesRule, othersRule], handle_duplicates := "skip" }

/-- Scenario profile with no catch-all rule at all. -/
def pNoCatchAll : ConfigProfile := { rules := [imagesRule] }

/-- A 10-byte `a.jpg` sitting directly in the target root. -/
def rawA : RawFile :=
  { path := "a.jpg", name := "a.jpg", stem := "a", suffix := ".jpg",
    inTargetRoot := true, size := 10, mtime := 0, ym := "2024-01" }

/-- A file with an extension no rule mentions. -/
def rawBUnknown : RawFile :=
  { path := "b.unknown", name := "b.unknown", stem := "b", suffix := ".unknown",
    inTargetRoot := true, size := 4, mtime := 0, ym := "2024-01" }

/-- A file whose `stat` raises (permission error during scanning). -/
def rawBStatFail : RawFile :=
  { path := "b.jpg", name := "b.jpg", stem := "b", suffix := ".jpg",
    inTargetRoot := true, size := 5, mtime := 0, ym := "2024-01", statFails := true }

/-- Round-trip scenario: real run with undo enabled, run from inside the
target (`root = ""`), where `Images/a.jpg` already exists with different
content, so the rename policy sends the new file to `Images/a_1.jpg`. -/
def runC1 : RunResult :=
  organize_directory "" pRename exclNone false true [rawA]
    [("a.jpg", 0), ("Images/a.jpg", 1)]

/-- Replaying the journal `runC1` wrote. -/
def undoC1 : UndoState := undo_last_operation runC1.fs (runC1.journal.getD [])

/-- Journal scenario: same tree, `skip` collision policy, undo enabled; the
one planned file is skipped, yet the journal gets an entry for it. -/
def runC4 : RunResult :=
  organize_directory "" pSkip exclNone false true [rawA]
    [("a.jpg", 0), ("Images/a.jpg", 1)]

/-- Stats scenario: a real run where one file scans fine and one file's
`stat` fails. -/
def runC6 : RunResult :=
  organize_directory "" pRename exclNone false false [rawA, rawBStatFail]
    [("a.jpg", 0), ("b.jpg", 5)]

/-- Dry-run scenario on a tree with one organizable file. -/
def runC7dry : RunResult :=
  organize_directory "" pRename exclNone true false [rawA] [("a.jpg", 0)]

/-- The same run as `runC7dry` but real. -/
def runC7real : RunResult :=
  organize_directory "" pRename exclNone false false [rawA] [("a.jpg", 0)]

/-- Unmatched-file scenario: profile without catch-all, one file no rule
matches. -/
def runC3 : RunResult :=
  organize_directory "" pNoCatchAll exclNone false false [rawBUnknown]
    [("b.unknown", 4)]

/-- Rename-collision scenario of the spec: `a.jpg` (content 7) must land at
`Images/a_1.jpg` because `Images/a.jpg` (content 3) already exists. -/
def runC9 : RunResult :=
  organize_directory "" pRename exclNone false false [rawA]
    [("a.jpg", 7), ("Images/a.jpg", 3)]

/-- A `.py` file sitting directly in the target root. -/
def rawScript : RawFile :=
  { path := "x.py", name := "x.py", stem := "x", suffix := ".py",
    inTargetRoot := true, size := 1, mtime := 0, ym := "2024-01" }

/-- Replay-order scenario: a two-entry journal whose targets both exist. -/
def fsC5 : FS := [("t1", 1), ("t2", 2)]

/-- The two journal entries of the replay-order scenario, in recorded
(move) order. -/
def opsC5 : List (String × String) := [("s1", "t1"), ("s2", "t2")]

/-- A `find?` returns the element at the first index satisfying the
predicate. -/
theorem find?_eq_of_first {α : Type _} (p : α → Bool) (l : List α) :
    ∀ (i : Nat) (hi : i < l.length),
      p (l.get ⟨i, hi⟩) = true →
      (∀ (j : Nat) (hj : j < l.length), j < i → p (l.get ⟨j, hj⟩) = false) →
      l.find? p = some (l.get ⟨i, hi⟩) := by
  induction l with
  | nil => intro i hi _ _; exact absurd hi (by simp)
  | cons a t ih =>
    intro i hi hp hbefore
    cases i with
    | zero => exact List.find?_cons_of_pos _ hp
    | succ n =>
      have ha : p a = false := hbefore 0 (by simp) (Nat.succ_pos n)
      rw [List.find?_cons_of_neg _ (by simp [ha])]
      have hn : n < t.length := by simpa using hi
      have hres := ih n hn (by simpa using hp)
        (fun j hj hji => by
          have hb := hbefore (j + 1) (by simpa using Nat.succ_lt_succ hj)
            (Nat.succ_lt_succ hji)
          simpa using hb)
      simpa using hres

/-- The boolean loop body of `get_rule_for_file` agrees with the claim's
prose predicate. -/
theorem ruleMatches_iff (r : OrganizationRule) (suffix : String)
    (size : Nat) (mtime : Int) :
    ruleMatches r (pyLower suffix) size mtime = true ↔
      ClaimMatches r suffix size mtime := by
  obtain ⟨name, exts, smin, smax, dmin, dmax, tf, en⟩ := r
  simp only [ruleMatches, ClaimMatches]
  cases smin <;> cases smax <;> cases dmin <;> cases dmax <;>
    simp [Nat.not_lt, Int.not_lt, List.isEmpty_iff, and_assoc]

/-- C2: the rule matcher returns the first enabled rule in list order for
which all specified predicates hold (extension membership compared
case-insensitively when the rule's extension set is non-empty, satisfied
unconditionally when it is empty; size within [size_min, size_max] when
set; modified time within [date_min, date_max] when set), and whenever an
enabled catch-all rule is present it never returns `none`. -/
theorem C2_rule_matcher_first_match (rules : List OrganizationRule)
    (suffix : String) (size : Nat) (mtime : Int) :
    (∀ (i : Nat) (hi : i < rules.length),
        (rules.get ⟨i, hi⟩).enabled = true →
        ClaimMatches (rules.get ⟨i, hi⟩) suffix size mtime →
        (∀ (j : Nat) (hj : j < rules.length), j < i →
            ¬((rules.get ⟨j, hj⟩).enabled = true ∧
              ClaimMatches (rules.get ⟨j, hj⟩) suffix size mtime)) →
        get_rule_for_file rules suffix size mtime = some (rules.get ⟨i, hi⟩)) ∧
    ((∃ r ∈ rules, IsCatchAll r) →
        (get_rule_for_file rules suffix size mtime).isSome = true) := by
  constructor
  · intro i hi hen hcm hbefore
    have hfind : rules.find?
        (fun r => r.enabled && ruleMatches r (pyLower suffix) size mtime)
          = some (rules.get ⟨i, hi⟩) := by
      apply find?_eq_of_first _ rules i hi
      · rw [Bool.and_eq_true]
        exact ⟨hen, (ruleMatches_iff _ _ _ _).mpr hcm⟩
      · intro j hj hji
        have hb := hbefore j hj hji
        cases hpj : ((rules.get ⟨j, hj⟩).enabled &&
            ruleMatches (rules.get ⟨j, hj⟩) (pyLower suffix) size mtime) with
        | false => rfl
        | true =>
          rw [Bool.and_eq_true] at hpj
          exact absurd ⟨hpj.1, (ruleMatches_iff _ _ _ _).mp hpj.2⟩ hb
    unfold get_rule_for_file
    rw [hfind]
  · rintro ⟨r, hr, hca⟩
    unfold get_rule_for_file
    cases hf : rules.find?
        (fun r => r.enabled && ruleMatches r (pyLower suffix) size mtime) with
    | some x => rfl
    | none =>
      exfalso
      apply List.find?_eq_none.mp hf r hr
      rw [Bool.and_eq_true]
      obtain ⟨hen, hext, h1, h2, h3, h4⟩ := hca
      refine ⟨hen, ?_⟩
      unfold ruleMatches
      rw [hext, h1, h2, h3, h4]
      simp

/-- Witness for C2 at the spec's concrete scenario profile: `.JPG` matches
the `Images` rule case-insensitively as the first rule, and with the
catch-all `Others` present the matcher returns a rule for an unknown
extension. -/
theorem C2_rule_matcher_first_match_witness :
    get_rule_for_file [imagesRule, othersRule] ".JPG" 5 0 = some imagesRule ∧
    (get_rule_for_file [imagesRule, othersRule] ".unknown" 5 0).isSome = true := by
  constructor
  · exact (C2_rule_matcher_first_match [imagesRule, othersRule] ".JPG" 5 0).1
      0 (by decide) rfl
      (show ClaimMatches imagesRule ".JPG" 5 0 by
        refine ⟨Or.inr (by decide), ?_, ?_, ?_, ?_⟩ <;>
          intro x h <;> simp [imagesRule] at h)
      (fun j hj hj0 => absurd hj0 (Nat.not_lt_zero j))
  · exact (C2_rule_matcher_first_match [imagesRule, othersRule] ".unknown" 5 0).2
      ⟨othersRule, by simp, rfl, rfl, rfl, rfl, rfl, rfl⟩

/-- Inserting a file rejected by the walk filters does not change the
scan. -/
theorem scan_directory_insert_of_keep_false (p : ConfigProfile)
    (excl : RawFile → Bool) (ws₁ ws₂ : List RawFile) (f : RawFile)
    (h : scanKeep p excl f = false) :
    scan_directory p excl (ws₁ ++ f :: ws₂) = scan_directory p excl (ws₁ ++ ws₂) := by
  unfold scan_directory
  rw [List.filter_append, List.filter_append, List.filter_cons]
  simp [h]

/-- Inserting a file whose scan step is the identity does not change the
scan. -/
theorem scan_directory_insert_of_step_id (p : ConfigProfile)
    (excl : RawFile → Bool) (ws₁ ws₂ : List RawFile) (f : RawFile)
    (h : ∀ st, scanStep p st f = st) :
    scan_directory p excl (ws₁ ++ f :: ws₂) = scan_directory p excl (ws₁ ++ ws₂) := by
  unfold scan_directory
  rw [List.filter_append, List.filter_append, List.filter_cons]
  cases hk : scanKeep p excl f with
  | false => simp
  | true => simp [List.foldl_append, h]

/-- C3 (amended): a scanned file that matches no rule, in a profile without
an applicable catch-all, is silently excluded from the run: its scan step
changes nothing (it is not planned, not counted in `total_files`, and not
counted in `errors`), and the whole run equals the run without the file —
in particular the file is left untouched. -/
theorem C3_unmatched_file_silently_dropped (root : String) (p : ConfigProfile)
    (excl : RawFile → Bool) (dry_run enable_undo : Bool) (fs0 : FS)
    (ws₁ ws₂ : List RawFile) (f : RawFile)
    (h1 : f.statFails = false) (h2 : sizeLimitOk p f.size = true)
    (h3 : get_rule_for_file p.rules f.suffix f.size f.mtime = none) :
    (∀ st : ScanState, scanStep p st f = st) ∧
    organize_directory root p excl dry_run enable_undo (ws₁ ++ f :: ws₂) fs0 =
      organize_directory root p excl dry_run enable_undo (ws₁ ++ ws₂) fs0 := by
  have hstep : ∀ st : ScanState, scanStep p st f = st := by
    intro st
    unfold scanStep
    rw [h1, h2, h3]
    simp
  refine ⟨hstep, ?_⟩
  unfold organize_directory
  exact congrArg _ (scan_directory_insert_of_step_id p excl ws₁ ws₂ f hstep)

/-- Witness for the amended C3 at the concrete unmatched-file scenario. -/
theorem C3_unmatched_file_silently_dropped_witness :
    organize_directory "" pNoCatchAll exclNone false false
        ([] ++ rawBUnknown :: []) [("b.unknown", 4)] =
      organize_directory "" pNoCatchAll exclNone false false
        ([] ++ []) [("b.unknown", 4)] :=
  (C3_unmatched_file_silently_dropped "" pNoCatchAll exclNone false false
    [("b.unknown", 4)] [] [] rawBUnknown rfl (by decide) (by decide)).2

/-- C10: a file directly in the target root whose suffix is `.py`, `.json`
or `.log` fails the walk filter regardless of the profile, the exclusion
predicate or any option, and inserting it into a run's walk changes
nothing: it is never scanned or organized. -/
theorem C10_root_script_files_excluded (root : String) (p : ConfigProfile)
    (excl : RawFile → Bool) (dry_run enable_undo : Bool) (fs0 : FS)
    (ws₁ ws₂ : List RawFile) (f : RawFile)
    (hroot : f.inTargetRoot = true)
    (hsuf : f.suffix = ".py" ∨ f.suffix = ".json" ∨ f.suffix = ".log") :
    scanKeep p excl f = false ∧
    organize_directory root p excl dry_run enable_undo (ws₁ ++ f :: ws₂) fs0 =
      organize_directory root p excl dry_run enable_undo (ws₁ ++ ws₂) fs0 := by
  have hk : scanKeep p excl f = false := by
    unfold scanKeep
    rcases hsuf with h | h | h <;> rw [hroot, h] <;> simp
  refine ⟨hk, ?_⟩
  unfold organize_directory
  exact congrArg _ (scan_directory_insert_of_keep_false p excl ws₁ ws₂ f hk)

/-- Witness for C10: a `.py` file in the target root of the scenario
profile is dropped and organizing with it present equals organizing
without it. -/
theorem C10_root_script_files_excluded_witness :
    scanKeep pRename exclNone rawScript = false ∧
    organize_directory "" pRename exclNone false false
        ([] ++ rawScript :: [rawA]) [("x.py", 9), ("a.jpg", 0)] =
      organize_directory "" pRename exclNone false false
        ([] ++ [rawA]) [("x.py", 9), ("a.jpg", 0)] :=
  C10_root_script_files_excluded "" pRename exclNone false false
    [("x.py", 9), ("a.jpg", 0)] [] [rawA] rawScript rfl (Or.inl rfl)

/-- C8: the planned relative destination is `base/[date]/[size]/filename`
with `base = rule.target_folder` when set (non-empty) and `rule.name`
otherwise, the date segment (present iff `create_date_folders`) being the
`YYYY-MM` rendering of the modified time, the size segment (present iff
`create_size_folders`) given by the bands Small below 1 MiB, Medium below
100 MiB, Large below 1 GiB, XLarge above, with strict less-than upper
bounds in binary units. -/
theorem C8_destination_planner (p : ConfigProfile) (r : OrganizationRule)
    (f : RawFile) :
    (r.target_folder = none →
        planTargetFolder p r f ++ "/" ++ f.name =
          specDest r.name f.ym f.size p.create_date_folders
            p.create_size_folders f.name) ∧
    (∀ s, r.target_folder = some s → s ≠ "" →
        planTargetFolder p r f ++ "/" ++ f.name =
          specDest s f.ym f.size p.create_date_folders
            p.create_size_folders f.name) ∧
    (f.size < 1048576 → get_size_category f.size = "Small") ∧
    (1048576 ≤ f.size → f.size < 104857600 → get_size_category f.size = "Medium") ∧
    (104857600 ≤ f.size → f.size < 1073741824 → get_size_category f.size = "Large") ∧
    (1073741824 ≤ f.size → get_size_category f.size = "XLarge") := by
  have hband : ∀ n : Nat, get_size_category n = specSizeBand n := by
    intro n
    unfold get_size_category specSizeBand
    norm_num
  refine ⟨?_, ?_, ?_, ?_, ?_, ?_⟩
  · intro htf
    unfold planTargetFolder specDest
    rw [htf]
    cases p.create_date_folders <;> cases p.create_size_folders <;>
      simp [hband, String.append_assoc]
  · intro s htf hs0
    unfold planTargetFolder specDest
    rw [htf]
    cases p.create_date_folders <;> cases p.create_size_folders <;>
      simp [hband, String.append_assoc, if_neg hs0]
  · intro h
    unfold get_size_category
    rw [if_pos (by omega)]
  · intro h1 h2
    unfold get_size_category
    rw [if_neg (by omega), if_pos (by omega)]
  · intro h1 h2
    unfold get_size_category
    rw [if_neg (by omega), if_neg (by omega), if_pos (by omega)]
  · intro h
    unfold get_size_category
    rw [if_neg (by omega), if_neg (by omega), if_neg (by omega)]

/-- Witness for C8: the scenario file under a rule without `target_folder`,
with date and size folders enabled, lands at
`Images/2024-01/Small/a.jpg`. -/
theorem C8_destination_planner_witness :
    planTargetFolder
        { rules := [imagesRule, othersRule], create_date_folders := true,
          create_size_folders := true }
        imagesRule rawA ++ "/" ++ rawA.name =
      specDest imagesRule.name rawA.ym rawA.size true true rawA.name :=
  (C8_destination_planner
    { rules := [imagesRule, othersRule], create_date_folders := true,
      create_size_folders := true }
    imagesRule rawA).1 rfl

/-- Pointwise-equal predicates give equal `any`. -/
theorem any_congr_of_mem {α : Type _} (p q : α → Bool) (l : List α)
    (h : ∀ a ∈ l, p a = q a) : l.any p = l.any q := by
  induction l with
  | nil => rfl
  | cons x t ih => simp [h x (by simp), ih (fun a ha => h a (by simp [ha]))]

/-- Removing one path leaves the existence of any other path unchanged. -/
theorem fsExists_fsRemove (fs : FS) (a c : String) (h : ¬ c = a) :
    fsExists (fsRemove fs a) c = fsExists fs c := by
  unfold fsExists fsRemove
  rw [List.any_filter]
  apply any_congr_of_mem
  intro e _
  by_cases he : e.1 = c
  · have ha : (e.1 == a) = false := by
      subst he
      simp [h]
    simp [ha]
  · simp [he]

/-- A move touches only its source and destination paths. -/
theorem fsExists_fsMove_of_ne (fs : FS) (src dst c : String)
    (h1 : ¬ c = src) (h2 : ¬ c = dst) :
    fsExists (fsMove fs src dst) c = fsExists fs c := by
  unfold fsMove
  cases hg : fsGet fs src with
  | none => rfl
  | some v =>
    show fsExists (fsRemove (fsRemove fs src) dst ++ [(dst, v)]) c = fsExists fs c
    unfold fsExists
    rw [List.any_append]
    have hdst : (dst == c) = false := by
      simp
      intro hh
      exact h2 hh.symm
    show (fsExists (fsRemove (fsRemove fs src) dst) c || _) = fsExists fs c
    rw [fsExists_fsRemove _ _ _ h2, fsExists_fsRemove _ _ _ h1]
    simp [hdst]

/-- Replay fold specification: when every entry's recorded destination
exists, destinations are pairwise distinct, and no source coincides with a
destination, the replay restores every entry, in journal order. -/
theorem undo_fold_spec (ops : List (String × String)) :
    ∀ (st : UndoState),
      (∀ op ∈ ops, fsExists st.fs op.2 = true) →
      (ops.map Prod.snd).Nodup →
      (∀ a ∈ ops, ∀ b ∈ ops, ¬ a.1 = b.2) →
      (ops.foldl undoStep st).restored =
          st.restored ++ ops.map (fun op => (op.2, op.1)) ∧
      (ops.foldl undoStep st).success_count = st.success_count + ops.length ∧
      (ops.foldl undoStep st).error_count = st.error_count := by
  induction ops with
  | nil => intro st _ _ _; simp
  | cons op rest ih =>
    intro st hex hnd hst
    simp only [List.foldl_cons]
    have hop : fsExists st.fs op.2 = true := hex op (by simp)
    have hstep : undoStep st op =
        { st with fs := fsMove st.fs op.2 op.1,
                  restored := st.restored ++ [(op.2, op.1)],
                  success_count := st.success_count + 1 } := by
      unfold undoStep
      rw [if_pos hop]
    rw [hstep]
    have hnd' : (op.2 ∉ rest.map Prod.snd) ∧ (rest.map Prod.snd).Nodup := by
      rw [List.map_cons, List.nodup_cons] at hnd
      exact hnd
    have hex' : ∀ o ∈ rest, fsExists (fsMove st.fs op.2 op.1) o.2 = true := by
      intro o ho
      rw [fsExists_fsMove_of_ne]
      · exact hex o (by simp [ho])
      · intro hco
        exact hnd'.1 (hco ▸ List.mem_map_of_mem Prod.snd ho)
      · intro hco
        exact hst op (by simp) o (by simp [ho]) hco.symm
    obtain ⟨h1, h2, h3⟩ := ih
      { st with fs := fsMove st.fs op.2 op.1,
                restored := st.restored ++ [(op.2, op.1)],
                success_count := st.success_count + 1 }
      hex' hnd'.2
      (fun a ha b hb => hst a (by simp [ha]) b (by simp [hb]))
    refine ⟨?_, ?_, ?_⟩
    · rw [h1]
      simp
    · rw [h2]
      simp
      omega
    · rw [h3]

/-- C5 (amended): the replay of `undo_last_operation` processes journal
entries in forward recorded order — the first entry written during the run
is the first one restored — moving each entry's recorded destination back
to its source; under the stated disjointness conditions every entry is
restored and no error is counted. -/
theorem C5_replay_forward_order (fs : FS) (ops : List (String × String))
    (hex : ∀ op ∈ ops, fsExists fs op.2 = true)
    (hnd : (ops.map Prod.snd).Nodup)
    (hst : ∀ a ∈ ops, ∀ b ∈ ops, ¬ a.1 = b.2) :
    (undo_last_operation fs ops).restored = ops.map (fun op => (op.2, op.1)) ∧
    (undo_last_operation fs ops).success_count = ops.length ∧
    (undo_last_operation fs ops).error_count = 0 := by
  have h := undo_fold_spec ops ⟨fs, [], 0, 0⟩ hex hnd hst
  simpa [undo_last_operation] using h

/-- Witness for the amended C5 at the two-entry journal scenario. -/
theorem C5_replay_forward_order_witness :
    (undo_last_operation fsC5 opsC5).restored =
        opsC5.map (fun op => (op.2, op.1)) ∧
    (undo_last_operation fsC5 opsC5).success_count = opsC5.length ∧
    (undo_last_operation fsC5 opsC5).error_count = 0 :=
  C5_replay_forward_order fsC5 opsC5 (by decide) (by decide) (by decide)

/-- The rename loop, started at candidate counter `counter`, returns the
first free candidate when the `d` candidates before it are all taken. -/
theorem resolveRename_finds_first_free (fs : FS) (folder stem sfx : String) :
    ∀ (d counter fuel : Nat) (cur : String),
      fsExists fs cur = true →
      (∀ m, counter ≤ m → m < counter + d →
          fsExists fs (renameCandidate folder stem sfx m) = true) →
      fsExists fs (renameCandidate folder stem sfx (counter + d)) = false →
      d + 2 ≤ fuel →
      resolveRename fs folder stem sfx cur counter fuel =
        renameCandidate folder stem sfx (counter + d) := by
  intro d
  induction d with
  | zero =>
    intro counter fuel cur hcur _ hfree hfuel
    obtain ⟨f1, rfl⟩ : ∃ f1, fuel = f1 + 1 := ⟨fuel - 1, by omega⟩
    obtain ⟨f2, rfl⟩ : ∃ f2, f1 = f2 + 1 := ⟨f1 - 1, by omega⟩
    rw [Nat.add_zero] at hfree
    simp only [resolveRename]
    rw [if_pos hcur, if_neg (by simp [hfree]), Nat.add_zero]
  | succ d ih =>
    intro counter fuel cur hcur hbusy hfree hfuel
    obtain ⟨f1, rfl⟩ : ∃ f1, fuel = f1 + 1 := ⟨fuel - 1, by omega⟩
    simp only [resolveRename]
    rw [if_pos hcur]
    have harith : counter + 1 + d = counter + (d + 1) := by omega
    have hres := ih (counter + 1) f1 (renameCandidate folder stem sfx counter)
      (hbusy counter (Nat.le_refl counter) (by omega))
      (fun m hm1 hm2 => hbusy m (by omega) (by omega))
      (by rw [harith]; exact hfree)
      (by omega)
    rw [hres, harith]

/-- C9: with the rename collision policy, when the destination already
exists the loop tries `stem_1`, `stem_2`, ... — checking existence of each
candidate — and returns the first free one; and in the spec's concrete
scenario (content 7 arriving while `Images/a.jpg` holds content 3) the new
file lands at `Images/a_1.jpg`, the original is untouched, and exactly one
move is counted. -/
theorem C9_rename_collision :
    (∀ (fs : FS) (folder stem sfx orig : String) (n fuel : Nat),
        0 < n → n + 1 ≤ fuel →
        fsExists fs orig = true →
        (∀ m, 1 ≤ m → m < n →
            fsExists fs (renameCandidate folder stem sfx m) = true) →
        fsExists fs (renameCandidate folder stem sfx n) = false →
        resolveRename fs folder stem sfx orig 1 fuel =
          renameCandidate folder stem sfx n) ∧
    runC9.stats.files_moved = 1 ∧
    fsGet runC9.fs "Images/a_1.jpg" = some 7 ∧
    fsGet runC9.fs "Images/a.jpg" = some 3 := by
  refine ⟨?_, by decide, by decide, by decide⟩
  intro fs folder stem sfx orig n fuel hn hfuel hcur hbusy hfree
  have harith : 1 + (n - 1) = n := by omega
  have h := resolveRename_finds_first_free fs folder stem sfx (n - 1) 1 fuel orig
    hcur
    (fun m hm1 hm2 => hbusy m hm1 (by omega))
    (by rw [harith]; exact hfree)
    (by omega)
  rw [harith] at h
  exact h

/-- Witness for C9: with `Images/a.jpg` and `Images/a_1.jpg` both taken,
the loop lands on `Images/a_2.jpg`. -/
theorem C9_rename_collision_witness :
    resolveRename [("Images/a.jpg", 1), ("Images/a_1.jpg", 2)] "Images" "a" ".jpg"
        "Images/a.jpg" 1 3 = renameCandidate "Images" "a" ".jpg" 2 :=
  (C9_rename_collision).1 [("Images/a.jpg", 1), ("Images/a_1.jpg", 2)]
    "Images" "a" ".jpg" "Images/a.jpg" 2 3 (by decide) (by decide) (by decide)
    (fun m hm1 hm2 => by
      have hm : m = 1 := by omega
      subst hm
      decide)
    (by decide)

/-- A string with a non-empty left part is non-empty. -/
theorem append_ne_empty_left (s t : String) (h : ¬ s = "") : ¬ (s ++ t) = "" := by
  intro hc
  apply h
  have hl := congrArg String.length hc
  rw [String.length_append] at hl
  have hs : s.length = 0 := by
    have : ("" : String).length = 0 := rfl
    omega
  cases s with
  | mk data =>
    have : data = [] := by
      simpa [String.length] using hs
    rw [this]

/-- Planned target folders are non-empty when rule names are. -/
theorem planTargetFolder_ne_empty (p : ConfigProfile) (r : OrganizationRule)
    (f : RawFile) (hname : ¬ r.name = "") : ¬ planTargetFolder p r f = "" := by
  unfold planTargetFolder
  have hb : ¬ (match r.target_folder with
      | none => r.name
      | some s => if s = "" then r.name else s) = "" := by
    cases r.target_folder with
    | none => exact hname
    | some s =>
      by_cases hs : s = ""
      · simp only [hs, if_pos rfl]
        exact hname
      · simp [hs]
  cases p.create_date_folders <;> cases p.create_size_folders <;> simp only []
  · exact hb
  · exact append_ne_empty_left _ _ (append_ne_empty_left _ _ hb)
  · exact append_ne_empty_left _ _ (append_ne_empty_left _ _ hb)
  · exact append_ne_empty_left _ _ (append_ne_empty_left _ _
      (append_ne_empty_left _ _ (append_ne_empty_left _ _ hb)))

/-- The matched rule belongs to the profile's rule list. -/
theorem mem_of_get_rule {rules : List OrganizationRule} {suffix : String}
    {size : Nat} {mtime : Int} {r : OrganizationRule}
    (h : get_rule_for_file rules suffix size mtime = some r) : r ∈ rules := by
  unfold get_rule_for_file at h
  cases hf : rules.find?
      (fun r => r.enabled && ruleMatches r (pyLower suffix) size mtime) with
  | some x =>
    rw [hf] at h
    cases h
    exact List.mem_of_find?_eq_some hf
  | none =>
    rw [hf] at h
    exact List.mem_of_find?_eq_some h

/-- Scanning files whose `stat` succeeds adds no errors. -/
theorem scan_foldl_errors (p : ConfigProfile) :
    ∀ (files : List RawFile) (st : ScanState),
      (∀ f ∈ files, f.statFails = false) →
      (files.foldl (scanStep p) st).errors = st.errors := by
  intro files
  induction files with
  | nil => intro st _; rfl
  | cons f t ih =>
    intro st h
    rw [List.foldl_cons, ih _ (fun g hg => h g (by simp [hg]))]
    unfold scanStep
    rw [h f (by simp), if_neg (by simp)]
    split
    · split <;> rfl
    · rfl

/-- Scan fold invariant: `total_files` counts the planned files, and every
planned file has a non-empty target folder (given non-empty rule names). -/
theorem scan_foldl_shape (p : ConfigProfile)
    (hname : ∀ r ∈ p.rules, ¬ r.name = "") :
    ∀ (files : List RawFile) (st : ScanState),
      st.total_files = st.infos.length →
      (∀ fi ∈ st.infos, ¬ fi.target_folder = "") →
      (files.foldl (scanStep p) st).total_files =
          (files.foldl (scanStep p) st).infos.length ∧
      (∀ fi ∈ (files.foldl (scanStep p) st).infos, ¬ fi.target_folder = "") := by
  intro files
  induction files with
  | nil => intro st h1 h2; exact ⟨h1, h2⟩
  | cons f t ih =>
    intro st h1 h2
    rw [List.foldl_cons]
    apply ih
    · unfold scanStep
      by_cases hsf : f.statFails = true
      · rw [if_pos hsf]; simpa using h1
      · rw [if_neg hsf]
        by_cases hsz : sizeLimitOk p f.size = true
        · rw [if_pos hsz]
          cases hr : get_rule_for_file p.rules f.suffix f.size f.mtime with
          | none => simpa using h1
          | some r => simp [h1]
        · rw [if_neg hsz]; exact h1
    · unfold scanStep
      by_cases hsf : f.statFails = true
      · rw [if_pos hsf]; simpa using h2
      · rw [if_neg hsf]
        by_cases hsz : sizeLimitOk p f.size = true
        · rw [if_pos hsz]
          cases hr : get_rule_for_file p.rules f.suffix f.size f.mtime with
          | none => simpa using h2
          | some r =>
            intro fi hfi
            rcases List.mem_append.mp hfi with hmem | hmem
            · exact h2 fi hmem
            · have heq : fi = mkFileInfo p r f := by simpa using hmem
              subst heq
              exact planTargetFolder_ne_empty p r f (hname r (mem_of_get_rule hr))
        · rw [if_neg hsz]; exact h2

/-- Each planned file with a non-empty target folder ends in exactly one of
the `moved`, `skipped`, `errors` counters. -/
theorem move_file_counts (root : String) (p : ConfigProfile) (st : ExecState)
    (fi : FileInfo) (h : ¬ fi.target_folder = "") :
    (move_file root p st fi).files_moved + (move_file root p st fi).files_skipped +
        (move_file root p st fi).errors =
      st.files_moved + st.files_skipped + st.errors + 1 := by
  unfold move_file
  rw [if_neg h]
  dsimp only
  repeat' split
  all_goals simp
  all_goals omega

/-- Executor fold: the three counters together grow by exactly the number
of processed files. -/
theorem exec_foldl_counts (root : String) (p : ConfigProfile) :
    ∀ (infos : List FileInfo) (st : ExecState),
      (∀ fi ∈ infos, ¬ fi.target_folder = "") →
      (infos.foldl (move_file root p) st).files_moved +
          (infos.foldl (move_file root p) st).files_skipped +
          (infos.foldl (move_file root p) st).errors =
        st.files_moved + st.files_skipped + st.errors + infos.length := by
  intro infos
  induction infos with
  | nil => intro st _; simp
  | cons fi t ih =>
    intro st h
    rw [List.foldl_cons, ih _ (fun g hg => h g (by simp [hg]))]
    have hstep := move_file_counts root p st fi (h fi (by simp))
    simp only [List.length_cons]
    omega

/-- C6 (amended): after a completed real (non-dry-run) run in which no
scan-time `stat` error occurred, the returned stats reconcile as
`total_files = moved + skipped + errors` (given rule names are non-empty,
as in every shipped profile); and files excluded by the exclusion patterns
or by the `max_file_size` limit are never counted in `total_files` — the
run is identical with or without them.  (Dry runs return all-zero outcome
counters, see C7; a scan-time `stat` error breaks the equation, see the
counterexample.) -/
theorem C6_stats_reconciliation (root : String) (p : ConfigProfile)
    (excl : RawFile → Bool) (enable_undo : Bool) (walk : List RawFile) (fs0 : FS)
    (hstat : ∀ f ∈ walk, f.statFails = false)
    (hname : ∀ r ∈ p.rules, ¬ r.name = "") :
    ((organize_directory root p excl false enable_undo walk fs0).stats.total_files =
        (organize_directory root p excl false enable_undo walk fs0).stats.files_moved +
        (organize_directory root p excl false enable_undo walk fs0).stats.files_skipped +
        (organize_directory root p excl false enable_undo walk fs0).stats.errors) ∧
    (∀ (ws₁ ws₂ : List RawFile) (f : RawFile), excl f = true →
        organize_directory root p excl false enable_undo (ws₁ ++ f :: ws₂) fs0 =
          organize_directory root p excl false enable_undo (ws₁ ++ ws₂) fs0) ∧
    (∀ (ws₁ ws₂ : List RawFile) (f : RawFile),
        f.statFails = false → sizeLimitOk p f.size = false →
        organize_directory root p excl false enable_undo (ws₁ ++ f :: ws₂) fs0 =
          organize_directory root p excl false enable_undo (ws₁ ++ ws₂) fs0) := by
  refine ⟨?_, ?_, ?_⟩
  · have hkept : ∀ f ∈ walk.filter (scanKeep p excl), f.statFails = false :=
      fun f hf => hstat f (List.mem_of_mem_filter hf)
    have herr : (scan_directory p excl walk).errors = 0 :=
      scan_foldl_errors p (walk.filter (scanKeep p excl)) ⟨[], 0, 0, 0⟩ hkept
    have hshape :
        (scan_directory p excl walk).total_files =
            (scan_directory p excl walk).infos.length ∧
        (∀ fi ∈ (scan_directory p excl walk).infos, ¬ fi.target_folder = "") :=
      scan_foldl_shape p hname (walk.filter (scanKeep p excl)) ⟨[], 0, 0, 0⟩ rfl
        (by intro fi hfi; simp at hfi)
    unfold organize_directory organize_from_scan
    by_cases hempty : (scan_directory p excl walk).infos.isEmpty = true
    · rw [if_pos hempty]
      have hlen : (scan_directory p excl walk).infos.length = 0 := by
        rw [List.isEmpty_iff.mp hempty]
        rfl
      show (scan_directory p excl walk).total_files =
        0 + 0 + (scan_directory p excl walk).errors
      omega
    · rw [if_neg hempty, if_neg (by simp)]
      have hcounts := exec_foldl_counts root p (scan_directory p excl walk).infos
        ⟨fs0, 0, 0, 0⟩ hshape.2
      simp only [] at hcounts
      show (scan_directory p excl walk).total_files = _
      dsimp only
      omega
  · intro ws₁ ws₂ f hf
    have hk : scanKeep p excl f = false := by
      unfold scanKeep
      rw [hf]
      simp
    unfold organize_directory
    exact congrArg _ (scan_directory_insert_of_keep_false p excl ws₁ ws₂ f hk)
  · intro ws₁ ws₂ f h1 h2
    have hstep : ∀ st : ScanState, scanStep p st f = st := by
      intro st
      unfold scanStep
      rw [h1, h2]
      simp
    unfold organize_directory
    exact congrArg _ (scan_directory_insert_of_step_id p excl ws₁ ws₂ f hstep)

/-- Witness for the amended C6 at the one-file scenario run. -/
theorem C6_stats_reconciliation_witness :
    (organize_directory "" pRename exclNone false false [rawA] [("a.jpg", 0)]).stats.total_files =
      (organize_directory "" pRename exclNone false false [rawA] [("a.jpg", 0)]).stats.files_moved +
      (organize_directory "" pRename exclNone false false [rawA] [("a.jpg", 0)]).stats.files_skipped +
      (organize_directory "" pRename exclNone false false [rawA] [("a.jpg", 0)]).stats.errors :=
  (C6_stats_reconciliation "" pRename exclNone false [rawA] [("a.jpg", 0)]
    (by decide) (by decide)).1

/-- C1: the claim states that a real `Organize` with undo enabled followed
by `Undo` on the resulting journal restores the original (path, content)
set exactly, and that the journal is deleted when the replay reports zero
errors.  Evaluating the code on a tree where `Images/a.jpg` already holds
different content: the journal records the planned relative destination
`Images/a.jpg` (written before the moves), the file actually lands at
`Images/a_1.jpg`, and the replay moves the unrelated pre-existing
`Images/a.jpg` to the source path, reports zero errors (so the journal is
deleted), and leaves a (path, content) set different from the original. -/
theorem C1_undo_roundtrip_bug :
    runC1.journal = some [("a.jpg", "Images/a.jpg")] ∧
    undoC1.error_count = 0 ∧
    fsGet undoC1.fs "a.jpg" = some 1 ∧
    fsGet [("a.jpg", 0), ("Images/a.jpg", 1)] "a.jpg" = some 0 ∧
    ¬ undoC1.fs.Perm [("a.jpg", 0), ("Images/a.jpg", 1)] := by
  decide

/-- C4: the claim states the journal holds exactly one (source,
destination) pair per operation whose outcome is `moved` — none for skipped
files — with the destination exactly as used at move time.  Evaluating the
code with the `skip` policy on a tree where the destination already exists:
the single planned file is skipped (`files_moved = 0`), yet the journal
still carries an entry for it, with the re-derived planned destination. -/
theorem C4_journal_planned_entries_bug :
    runC4.journal = some [("a.jpg", "Images/a.jpg")] ∧
    runC4.stats.files_moved = 0 ∧
    runC4.stats.files_skipped = 1 := by
  decide

/-- C7: the claim states a dry run performs no filesystem mutation and
writes no journal — which holds — and that `Stats.moved` still reflects the
count of files that would move — which fails: `organize_directory` returns
before `_execute_organization` when `dry_run` is set (organizer.py line
156), so `files_moved` stays 0 while the identical real run moves 1. -/
theorem C7_dry_run_bug :
    runC7dry.fs = [("a.jpg", 0)] ∧
    runC7dry.journal = none ∧
    runC7dry.stats.files_moved = 0 ∧
    runC7real.stats.files_moved = 1 := by
  decide

/-- C3 counterexample: the claim states a scanned file matching no rule
(profile without catch-all) is recorded as an error and counted in
`Stats.errors`.  On a one-file tree whose file matches no rule, the run
completes with `errors = 0` (and the file in no other counter either): the
file is silently dropped, refuting the claim. -/
theorem C3_no_rule_counterexample :
    get_rule_for_file pNoCatchAll.rules ".unknown" 4 0 = none ∧
    runC3.stats.errors = 0 ∧
    ¬ 1 ≤ runC3.stats.errors ∧
    runC3.stats.total_files = 0 ∧
    runC3.fs = [("b.unknown", 4)] := by
  decide

/-- C6 counterexample: the claim states every completed run satisfies
`total_files = moved + skipped + errors`.  On a real run where one file's
`stat` fails during scanning, the error is counted but the file never
enters `total_files`: the run returns `total_files = 1` against
`moved + skipped + errors = 2`. -/
theorem C6_stats_counterexample :
    runC6.stats.total_files = 1 ∧
    runC6.stats.files_moved + runC6.stats.files_skipped + runC6.stats.errors = 2 ∧
    ¬ runC6.stats.total_files =
        runC6.stats.files_moved + runC6.stats.files_skipped + runC6.stats.errors := by
  decide

/-- C5 counterexample: the claim states `Undo` processes journal entries in
reverse of move order (last moved, first restored).  On a two-entry journal
whose targets both exist, the replay restores the first recorded entry
first: the restore trace equals the forward order and differs from the
reverse order the claim requires. -/
theorem C5_replay_order_counterexample :
    (undo_last_operation fsC5 opsC5).restored = [("t1", "s1"), ("t2", "s2")] ∧
    (undo_last_operation fsC5 opsC5.reverse).restored = [("t2", "s2"), ("t1", "s1")] ∧
    ¬ (undo_last_operation fsC5 opsC5).restored = [("t2", "s2"), ("t1", "s1")] := by
  decide

end FileOrganizer

